import Mathlib

/-!
Verification of `scripts/sudachi_tokenize.py`, a small CLI that reads text
from stdin, tokenizes it with the SudachiPy library, and writes a JSON array
to stdout.

The script is embedded shallowly:
* the SudachiPy library is an oracle: `tok` maps (text, split mode) to the
  list of morphemes, and `dictBuild` models `dictionary.Dictionary(**dict_args).create()`
  (it may raise, modelled by `Except`);
* `pyStrip` models Python `str.strip()` over Unicode whitespace;
* `dumpJson` models `json.dumps(payload, ensure_ascii=False)` with the
  default separators `", "` and `": "`;
* `parse_args` models the argparse parser built in the script (choices
  `A`/`B`/`C` for `--mode`, default `"C"`; `--config` default `None`;
  an invalid choice makes argparse print a usage/error message to stderr
  and exit with status 2);
* `runScript` models a whole process run: the import guard, `parse_args`,
  reading stdin, the empty-text short circuit, dictionary construction,
  tokenization and serialization.  An uncaught Python exception is modelled
  as exit status 1 with a traceback on stderr.
-/

/-- A morpheme record as returned by the Sudachi tokenizer: the five
accessors the script reads (`surface()`, `dictionary_form()`,
`reading_form()`, `part_of_speech()`, `normalized_form()`). -/
structure Morpheme where
  surface : String
  dictionary_form : String
  reading_form : String
  part_of_speech : List String
  normalized_form : String
deriving DecidableEq, Repr

/-- Unicode whitespace as recognized by CPython `str.strip()`
(`Py_UNICODE_ISSPACE`). -/
def isPySpace (c : Char) : Bool :=
  (0x09 ≤ c.val && c.val ≤ 0x0d) || (0x1c ≤ c.val && c.val ≤ 0x1f) ||
  c.val == 0x20 || c.val == 0x85 || c.val == 0xa0 || c.val == 0x1680 ||
  (0x2000 ≤ c.val && c.val ≤ 0x200a) || c.val == 0x2028 || c.val == 0x2029 ||
  c.val == 0x202f || c.val == 0x205f || c.val == 0x3000

/-- `str.strip()` on a list of characters: drop whitespace from both ends. -/
def pyStripList (l : List Char) : List Char :=
  ((l.dropWhile isPySpace).reverse.dropWhile isPySpace).reverse

/-- Python `text.strip()`. -/
def pyStrip (s : String) : String :=
  String.mk (pyStripList s.data)

/-- The JSON values the script can produce (strings, arrays, objects). -/
inductive Json where
  | str (s : String)
  | arr (xs : List Json)
  | obj (fields : List (String × Json))
deriving Repr

/-- One hexadecimal digit, lowercase, as produced by CPython. -/
def hexDigit (n : Nat) : Char :=
  if n < 10 then Char.ofNat (48 + n) else Char.ofNat (87 + n)

/-- Four hex digits for a `\uXXXX` escape. -/
def hex4 (n : Nat) : String :=
  String.mk [hexDigit (n / 4096 % 16), hexDigit (n / 256 % 16),
             hexDigit (n / 16 % 16), hexDigit (n % 16)]

/-- How `json.dumps(..., ensure_ascii=False)` renders one character inside a
string literal: only the backslash, the double quote and control characters
below U+0020 are escaped; every other character (in particular every
non-ASCII character) is emitted literally. -/
def pyEscapeChar (c : Char) : String :=
  if c = '\\' then "\\\\"
  else if c = '\"' then "\\\""
  else if c = '\x08' then "\\b"
  else if c = '\x0c' then "\\f"
  else if c = '\n' then "\\n"
  else if c = '\r' then "\\r"
  else if c = '\t' then "\\t"
  else if c.toNat < 0x20 then "\\u" ++ hex4 c.toNat
  else String.mk [c]

/-- Concatenation of a list of strings (`"".join(...)`). -/
def concatStrings : List String → String
  | [] => ""
  | x :: xs => x ++ concatStrings xs

/-- A JSON string literal: quote, escaped characters, quote. -/
def dumpString (s : String) : String :=
  "\"" ++ concatStrings (s.data.map pyEscapeChar) ++ "\""

/-- `sep.join(parts)` as Python's `str.join` produces it. -/
def joinSep (sep : String) : List String → String
  | [] => ""
  | [x] => x
  | x :: y :: xs => x ++ sep ++ joinSep sep (y :: xs)

mutual
/-- `json.dumps(v, ensure_ascii=False)` with the default separators
`", "` between items and `": "` between a key and its value. -/
def dumpJson : Json → String
  | .str s => dumpString s
  | .arr xs => "[" ++ joinSep ", " (dumpJsonList xs) ++ "]"
  | .obj fs => "\x7b" ++ joinSep ", " (dumpFieldList fs) ++ "\x7d"

/-- Rendered items of a JSON array, in order. -/
def dumpJsonList : List Json → List String
  | [] => []
  | x :: xs => dumpJson x :: dumpJsonList xs

/-- Rendered `"key": value` pairs of a JSON object, in order. -/
def dumpFieldList : List (String × Json) → List String
  | [] => []
  | (k, v) :: fs => (dumpString k ++ ": " ++ dumpJson v) :: dumpFieldList fs
end

/-- The dict the script builds for one morpheme (the loop body of `main`):
exactly the five keys, in source order, with `partOfSpeech` the list of
part-of-speech tag strings. -/
def morphemeEntry (m : Morpheme) : Json :=
  Json.obj [("surface", Json.str m.surface),
            ("dictionaryForm", Json.str m.dictionary_form),
            ("reading", Json.str m.reading_form),
            ("partOfSpeech", Json.arr (m.part_of_speech.map Json.str)),
            ("normalizedForm", Json.str m.normalized_form)]

/-- The `payload` list built by the `for morpheme in morphemes` loop. -/
def payloadOf (morphemes : List Morpheme) : List Json :=
  morphemes.map morphemeEntry

/-- The keys of a JSON object, in order (empty for non-objects). -/
def jsonKeys : Json → List String
  | Json.obj fs => fs.map Prod.fst
  | _ => []

/-- Value of a key in a JSON object (first occurrence). -/
def jsonLookup : Json → String → Option Json
  | Json.obj fs, k => (fs.find? (fun p => p.1 == k)).map Prod.snd
  | _, _ => none

/-- Parsed command-line arguments (the `argparse.Namespace`). -/
structure Args where
  mode : String
  config : Option String
deriving DecidableEq, Repr

/-- Result of `parse_args()`: either a namespace, or the usage/error text
argparse prints to stderr before calling `sys.exit(2)`. -/
inductive ArgResult where
  | ok (args : Args)
  | usageError (msg : String)
deriving DecidableEq, Repr

/-- The `choices=("A", "B", "C")` tuple of the `--mode` option. -/
def validModes : List String := ["A", "B", "C"]

/-- The usage/error message argparse prints for an invalid `--mode` choice
(the exact wording is argparse internals; what matters is that it is a
non-empty diagnostic on stderr followed by `sys.exit(2)`). -/
def usageErrorMsg (m : String) : String :=
  "usage: sudachi_tokenize.py [-h] [--mode \x7bA,B,C\x7d] [--config CONFIG]\n" ++
  "sudachi_tokenize.py: error: argument --mode: invalid choice: " ++
  m ++ " (choose from A, B, C)\n"

/-- `parse_args()` over the raw option values: `--mode` defaults to `"C"`
and must be one of `A`, `B`, `C`; `--config` defaults to `None` and accepts
any string. -/
def parse_args (modeArg : Option String) (configArg : Option String) : ArgResult :=
  match modeArg with
  | none => ArgResult.ok ⟨"C", configArg⟩
  | some m =>
      if m ∈ validModes then ArgResult.ok ⟨m, configArg⟩
      else ArgResult.usageError (usageErrorMsg m)

/-- `parse_args` succeeded. -/
def argOk : ArgResult → Bool
  | ArgResult.ok _ => true
  | ArgResult.usageError _ => false

/-- Observable outcome of one process run, plus whether the dictionary
constructor and the tokenizer were reached. -/
structure RunResult where
  exitCode : Nat
  stdout : String
  stderr : String
  dictAttempted : Bool
  tokenizerInvoked : Bool
deriving DecidableEq, Repr

/-- The diagnostic written by the `except ImportError` guard. -/
def missingDepMsg : String :=
  "SudachiPy is not installed. Run pnpm run sudachi:setup before using this script.\n"

/-- The `config_path` keyword argument passed to `dictionary.Dictionary`:
`dict_args` stays empty unless `args.config` is truthy (non-`None` and
non-empty). -/
def dictArgsOf (config : Option String) : Option String :=
  match config with
  | some c => if c = "" then none else some c
  | none => none

/-- One full run of the script.

* `libAvailable` — whether `from sudachipy import dictionary, tokenizer`
  succeeds;
* `dictBuild` — oracle for `dictionary.Dictionary(**dict_args).create()`,
  given the `config_path` (or `none`); an `error` is an uncaught Python
  exception (traceback on stderr, exit status 1);
* `tok` — oracle for `tokenizer_obj.tokenize(text, split_mode)`, taking the
  text and the split-mode name (`"A"`, `"B"` or `"C"`);
* `modeArg`, `configArg` — raw values of `--mode` and `--config`;
* `stdin` — the whole of standard input. -/
def runScript (libAvailable : Bool)
    (dictBuild : Option String → Except String Unit)
    (tok : String → String → List Morpheme)
    (modeArg configArg : Option String) (stdin : String) : RunResult :=
  if libAvailable = false then
    ⟨1, "", missingDepMsg, false, false⟩
  else
    match parse_args modeArg configArg with
    | ArgResult.usageError msg => ⟨2, "", msg, false, false⟩
    | ArgResult.ok args =>
      let text := pyStrip stdin
      if text = "" then
        ⟨0, "[]" ++ "\n", "", false, false⟩
      else
        match dictBuild (dictArgsOf args.config) with
        | Except.error tb =>
            ⟨1, "", "Traceback (most recent call last):\n" ++ tb, true, false⟩
        | Except.ok _ =>
            let morphemes := tok text args.mode
            ⟨0, dumpJson (Json.arr (payloadOf morphemes)) ++ "\n", "",
             true, true⟩

/-! ## Concrete oracles used by witnesses -/

/-- A dictionary build that always succeeds. -/
def dbOk : Option String → Except String Unit := fun _ => Except.ok ()

/-- A dictionary build that always raises (e.g. a malformed config file). -/
def dbFail : Option String → Except String Unit :=
  fun _ => Except.error "SudachiError: invalid configuration"

/-- A tokenizer returning no morphemes. -/
def tokEmpty : String → String → List Morpheme := fun _ _ => []

/-- Sample morpheme 東京都. -/
def mTokyo : Morpheme :=
  ⟨"東京都", "東京都", "トウキョウト", ["名詞", "固有名詞", "地名"], "東京都"⟩

/-- Sample morpheme 行く. -/
def mIku : Morpheme := ⟨"行く", "行く", "イク", ["動詞", "一般"], "行く"⟩

/-- A tokenizer returning the two sample morphemes for any input. -/
def tokSample : String → String → List Morpheme := fun _ _ => [mTokyo, mIku]

/-- A tokenizer that agrees with `tokEmpty` except on one specific text. -/
def tokAlt : String → String → List Morpheme :=
  fun t _ => if t = "unused-text" then [mTokyo] else []


/-! ## Helper lemmas -/

lemma string_data_append (s t : String) : (s ++ t).data = s.data ++ t.data := rfl

lemma pyStripList_eq_nil {l : List Char} (h : ∀ c ∈ l, isPySpace c = true) :
    pyStripList l = [] := by
  unfold pyStripList
  rw [List.dropWhile_eq_nil_iff.mpr h]
  rfl

lemma pyStrip_eq_empty {s : String} (h : ∀ c ∈ s.data, isPySpace c = true) :
    pyStrip s = "" := by
  unfold pyStrip
  rw [pyStripList_eq_nil h]

lemma parse_args_ok_mode {margs cargs : Option String} {a : Args}
    (h : parse_args margs cargs = ArgResult.ok a) : a.mode ∈ validModes := by
  cases margs with
  | none =>
      simp only [parse_args] at h
      cases h
      simp [validModes]
  | some m =>
      simp only [parse_args] at h
      by_cases hm : m ∈ validModes
      · rw [if_pos hm] at h
        cases h
        exact hm
      · rw [if_neg hm] at h
        cases h

lemma argOk_exists {margs cargs : Option String}
    (h : argOk (parse_args margs cargs) = true) :
    ∃ a, parse_args margs cargs = ArgResult.ok a := by
  cases hp : parse_args margs cargs with
  | ok a => exact ⟨a, rfl⟩
  | usageError msg => rw [hp] at h; cases h

/-! ## Claim theorems -/

/-- C1: for every stdin input that is zero-length or consists only of
whitespace (and a run in which the library imports and the arguments parse),
the program prints exactly the literal text `[]` (the line `print("[]")`
emits, i.e. `[]` plus the trailing newline) to stdout, exits successfully,
and never invokes the tokenizer. -/
theorem empty_input_short_circuit
    (db : Option String → Except String Unit)
    (tok : String → String → List Morpheme)
    (margs cargs : Option String) (stdin : String)
    (hargs : argOk (parse_args margs cargs) = true)
    (hspace : ∀ c ∈ stdin.data, isPySpace c = true) :
    runScript true db tok margs cargs stdin = ⟨0, "[]" ++ "\n", "", false, false⟩ := by
  obtain ⟨a, ha⟩ := argOk_exists hargs
  simp [runScript, ha, pyStrip_eq_empty hspace]

/-- Witness for C1 at the concrete input `" \n "` (whitespace only). -/
theorem empty_input_short_circuit_witness :
    argOk (parse_args none none) = true ∧
    (∀ c ∈ (" \n ").data, isPySpace c = true) ∧
    runScript true dbOk tokEmpty none none " \n " = ⟨0, "[]" ++ "\n", "", false, false⟩ :=
  ⟨by decide, by decide,
   empty_input_short_circuit dbOk tokEmpty none none " \n " (by decide) (by decide)⟩

/-- C3: when the SudachiPy import fails, the program writes the diagnostic
to stderr, exits with status 1, and writes nothing to stdout. -/
theorem missing_dependency_diagnostic
    (db : Option String → Except String Unit)
    (tok : String → String → List Morpheme)
    (margs cargs : Option String) (stdin : String) :
    runScript false db tok margs cargs stdin = ⟨1, "", missingDepMsg, false, false⟩ := rfl

/-- C8: on whitespace-only or empty stdin, the dictionary and tokenizer are
never constructed: the run succeeds with output `[]` even when the
dictionary build would raise for every config (e.g. `--config` names a
nonexistent or malformed file). -/
theorem empty_input_skips_dictionary
    (db : Option String → Except String Unit)
    (tok : String → String → List Morpheme)
    (margs cargs : Option String) (stdin : String) (e : String)
    (hargs : argOk (parse_args margs cargs) = true)
    (hspace : ∀ c ∈ stdin.data, isPySpace c = true)
    (_hfail : ∀ cfg, db cfg = Except.error e) :
    runScript true db tok margs cargs stdin = ⟨0, "[]" ++ "\n", "", false, false⟩ := by
  obtain ⟨a, ha⟩ := argOk_exists hargs
  simp [runScript, ha, pyStrip_eq_empty hspace]

/-- Witness for C8: a failing dictionary build, `--config` pointing at a
nonexistent path, and a newline-only stdin. -/
theorem empty_input_skips_dictionary_witness :
    argOk (parse_args none (some "/nonexistent/sudachi.json")) = true ∧
    (∀ c ∈ ("\n").data, isPySpace c = true) ∧
    (∀ cfg, dbFail cfg = Except.error "SudachiError: invalid configuration") ∧
    runScript true dbFail tokEmpty none (some "/nonexistent/sudachi.json") "\n"
      = ⟨0, "[]" ++ "\n", "", false, false⟩ :=
  ⟨by decide, by decide, fun _ => rfl,
   empty_input_skips_dictionary dbFail tokEmpty none (some "/nonexistent/sudachi.json")
     "\n" "SudachiError: invalid configuration" (by decide) (by decide) (fun _ => rfl)⟩

/-- C9: the program is deterministic — two runs with the same stdin, the
same arguments and the same dictionary build, whose tokenizers return the
same morpheme sequence on the stripped text for every valid mode, produce
identical results (in particular byte-identical stdout). -/
theorem deterministic_output
    (lib : Bool) (db : Option String → Except String Unit)
    (tok1 tok2 : String → String → List Morpheme)
    (margs cargs : Option String) (stdin : String)
    (h : ∀ mode ∈ validModes, tok1 (pyStrip stdin) mode = tok2 (pyStrip stdin) mode) :
    runScript lib db tok1 margs cargs stdin = runScript lib db tok2 margs cargs stdin := by
  cases lib with
  | false => rfl
  | true =>
    cases hp : parse_args margs cargs with
    | usageError msg => simp [runScript, hp]
    | ok a =>
      have htok := h a.mode (parse_args_ok_mode hp)
      simp only [runScript, hp]
      rw [htok]

/-- Witness for C9: two syntactically different tokenizers that agree on the
input actually used produce the same run result. -/
theorem deterministic_output_witness :
    (∀ mode ∈ validModes, tokEmpty (pyStrip "hi") mode = tokAlt (pyStrip "hi") mode) ∧
    runScript true dbOk tokEmpty none none "hi" = runScript true dbOk tokAlt none none "hi" :=
  ⟨by decide,
   deterministic_output true dbOk tokEmpty tokAlt none none "hi" (by decide)⟩

/-- C10: `--config ""` behaves exactly like omitting `--config`: the empty
string is falsy, so no `config_path` is passed to the dictionary
constructor. -/
theorem empty_config_equals_default
    (lib : Bool) (db : Option String → Except String Unit)
    (tok : String → String → List Morpheme)
    (margs : Option String) (stdin : String) :
    runScript lib db tok margs (some "") stdin = runScript lib db tok margs none stdin := by
  cases lib with
  | false => rfl
  | true =>
    cases margs with
    | none => simp [runScript, parse_args, dictArgsOf]
    | some m =>
      by_cases hm : m ∈ validModes
      · simp [runScript, parse_args, hm, dictArgsOf]
      · simp [runScript, parse_args, hm]

/-- C6: `--mode` accepts exactly `A`, `B`, `C`, defaults to `C` when
omitted, and an invalid mode is rejected by argparse before the dictionary
or tokenizer is ever constructed (the run exits with argparse's status 2,
nothing on stdout). -/
theorem mode_validation
    (margs cargs : Option String) :
    (margs = none → parse_args margs cargs = ArgResult.ok ⟨"C", cargs⟩) ∧
    (∀ m, margs = some m → (argOk (parse_args margs cargs) = true ↔ m ∈ validModes)) ∧
    (argOk (parse_args margs cargs) = false →
      ∀ (db : Option String → Except String Unit)
        (tok : String → String → List Morpheme) (stdin : String),
        (runScript true db tok margs cargs stdin).dictAttempted = false ∧
        (runScript true db tok margs cargs stdin).tokenizerInvoked = false ∧
        (runScript true db tok margs cargs stdin).exitCode = 2 ∧
        (runScript true db tok margs cargs stdin).stdout = "") := by
  refine ⟨?_, ?_, ?_⟩
  · rintro rfl
    rfl
  · rintro m rfl
    by_cases hm : m ∈ validModes
    · simp [parse_args, hm, argOk]
    · simp [parse_args, hm, argOk]
  · intro hbad db tok stdin
    cases hp : parse_args margs cargs with
    | ok a => rw [hp] at hbad; cases hbad
    | usageError msg => simp [runScript, hp]

/-- Witness for C6 at `--mode D`: parsing fails and the run never reaches
the dictionary or the tokenizer. -/
theorem mode_validation_witness :
    (argOk (parse_args (some "D") none) = true ↔ "D" ∈ validModes) ∧
    (runScript true dbOk tokEmpty (some "D") none "hello").dictAttempted = false ∧
    (runScript true dbOk tokEmpty (some "D") none "hello").tokenizerInvoked = false :=
  ⟨((mode_validation (some "D") none).2.1 "D" rfl),
   ((mode_validation (some "D") none).2.2 (by decide) dbOk tokEmpty "hello").1,
   ((mode_validation (some "D") none).2.2 (by decide) dbOk tokEmpty "hello").2.1⟩

/-- Counterexample to C7 as stated: the library imports successfully, yet
the run writes a (non-empty) diagnostic to stderr — argparse rejects the
invalid `--mode D` with a usage/error message on stderr and exit status 2. -/
theorem stderr_only_missing_dep_counterexample :
    (runScript true dbOk tokEmpty (some "D") none "hello").stderr ≠ "" ∧
    (runScript true dbOk tokEmpty (some "D") none "hello").exitCode = 2 := by
  constructor
  · decide
  · rfl

/-- C7 amended: stderr stays empty on every run in which the library
imports, the arguments parse, and the dictionary build does not raise
(argparse argument rejection and propagated library exceptions also write
to stderr, beyond the missing-dependency diagnostic). -/
theorem stderr_empty_on_clean_run
    (db : Option String → Except String Unit)
    (tok : String → String → List Morpheme)
    (margs cargs : Option String) (stdin : String)
    (hargs : argOk (parse_args margs cargs) = true)
    (hdb : ∀ cfg, db cfg = Except.ok ()) :
    (runScript true db tok margs cargs stdin).stderr = "" := by
  obtain ⟨a, ha⟩ := argOk_exists hargs
  simp only [runScript, ha]
  by_cases ht : pyStrip stdin = ""
  · simp [ht]
  · simp [ht, hdb]

/-- Witness for the amended C7 on a clean run over non-empty input. -/
theorem stderr_empty_on_clean_run_witness :
    argOk (parse_args (some "A") none) = true ∧
    (∀ cfg, dbOk cfg = Except.ok ()) ∧
    (runScript true dbOk tokSample (some "A") none "東京都に行く").stderr = "" :=
  ⟨by decide, fun _ => rfl,
   stderr_empty_on_clean_run dbOk tokSample (some "A") none "東京都に行く"
     (by decide) (fun _ => rfl)⟩

/-! ## Serialization lemmas -/

lemma mem_concatStrings {c : Char} {s : String} {l : List String}
    (hs : s ∈ l) (hc : c ∈ s.data) : c ∈ (concatStrings l).data := by
  induction l with
  | nil => cases hs
  | cons x xs ih =>
    rcases List.mem_cons.mp hs with h | h
    · subst h
      simp only [concatStrings]
      rw [string_data_append]
      exact List.mem_append_left _ hc
    · simp only [concatStrings]
      rw [string_data_append]
      exact List.mem_append_right _ (ih h)

lemma mem_joinSep {c : Char} {s : String} {sep : String} {l : List String}
    (hs : s ∈ l) (hc : c ∈ s.data) : c ∈ (joinSep sep l).data := by
  induction l with
  | nil => cases hs
  | cons x xs ih =>
    cases xs with
    | nil =>
      rcases List.mem_cons.mp hs with h | h
      · subst h
        simpa [joinSep] using hc
      · cases h
    | cons y ys =>
      rcases List.mem_cons.mp hs with h | h
      · subst h
        simp only [joinSep]
        rw [string_data_append]
        exact List.mem_append_left _ (by rw [string_data_append]; exact List.mem_append_left _ hc)
      · simp only [joinSep]
        rw [string_data_append]
        exact List.mem_append_right _ (ih h)

lemma dumpJsonList_eq_map (xs : List Json) : dumpJsonList xs = xs.map dumpJson := by
  induction xs with
  | nil => rfl
  | cons x xs ih => simp [dumpJsonList, ih]

lemma mem_dumpString {c : Char} {s : String} (hc : c ∈ s.data)
    (hesc : pyEscapeChar c = String.mk [c]) : c ∈ (dumpString s).data := by
  have hmem : String.mk [c] ∈ s.data.map pyEscapeChar := by
    rw [← hesc]
    exact List.mem_map_of_mem _ hc
  have hcc : c ∈ (String.mk [c]).data := by simp
  have := mem_concatStrings hmem hcc
  simp only [dumpString]
  rw [string_data_append]
  exact List.mem_append_left _ (by rw [string_data_append]; exact List.mem_append_right _ this)

lemma pyEscapeChar_nonAscii {c : Char} (h : 0x80 ≤ c.toNat) :
    pyEscapeChar c = String.mk [c] := by
  have h1 : c ≠ '\\' := by rintro rfl; exact absurd h (by decide)
  have h2 : c ≠ '\"' := by rintro rfl; exact absurd h (by decide)
  have h3 : c ≠ '\x08' := by rintro rfl; exact absurd h (by decide)
  have h4 : c ≠ '\x0c' := by rintro rfl; exact absurd h (by decide)
  have h5 : c ≠ '\n' := by rintro rfl; exact absurd h (by decide)
  have h6 : c ≠ '\r' := by rintro rfl; exact absurd h (by decide)
  have h7 : c ≠ '\t' := by rintro rfl; exact absurd h (by decide)
  have h8 : ¬ c.toNat < 0x20 := by omega
  simp [pyEscapeChar, h1, h2, h3, h4, h5, h6, h7, h8]

lemma mem_field_entry {c : Char} {key s : String} (hds : c ∈ (dumpString s).data) :
    c ∈ (dumpString key ++ ": " ++ dumpJson (Json.str s)).data := by
  simp only [dumpJson]
  rw [string_data_append]
  exact List.mem_append_right _ hds

lemma mem_dump_morphemeEntry {c : Char} {s : String} (m : Morpheme)
    (hs : s ∈ [m.surface, m.dictionary_form, m.reading_form, m.normalized_form])
    (hc : c ∈ s.data) (hesc : pyEscapeChar c = String.mk [c]) :
    c ∈ (dumpJson (morphemeEntry m)).data := by
  have hds : c ∈ (dumpString s).data := mem_dumpString hc hesc
  have hjoin : c ∈ (joinSep ", "
      (dumpFieldList [("surface", Json.str m.surface),
                      ("dictionaryForm", Json.str m.dictionary_form),
                      ("reading", Json.str m.reading_form),
                      ("partOfSpeech", Json.arr (m.part_of_speech.map Json.str)),
                      ("normalizedForm", Json.str m.normalized_form)])).data := by
    simp only [dumpFieldList]
    fin_cases hs
    · exact mem_joinSep
        (s := dumpString "surface" ++ ": " ++ dumpJson (Json.str m.surface))
        (by simp) (mem_field_entry hds)
    · exact mem_joinSep
        (s := dumpString "dictionaryForm" ++ ": " ++ dumpJson (Json.str m.dictionary_form))
        (by simp) (mem_field_entry hds)
    · exact mem_joinSep
        (s := dumpString "reading" ++ ": " ++ dumpJson (Json.str m.reading_form))
        (by simp) (mem_field_entry hds)
    · exact mem_joinSep
        (s := dumpString "normalizedForm" ++ ": " ++ dumpJson (Json.str m.normalized_form))
        (by simp) (mem_field_entry hds)
  simp only [morphemeEntry, dumpJson]
  rw [string_data_append]
  exact List.mem_append_left _ (by rw [string_data_append]; exact List.mem_append_right _ hjoin)

/-- C2: for every non-empty (after trimming) input on a clean run, stdout is
the serialization of `payload`, and `payload` has exactly one element per
morpheme, in tokenizer order: element `i` is built from morpheme `i`. -/
theorem payload_matches_morphemes
    (db : Option String → Except String Unit)
    (tok : String → String → List Morpheme)
    (margs cargs : Option String) (stdin : String) (a : Args)
    (hp : parse_args margs cargs = ArgResult.ok a)
    (hne : pyStrip stdin ≠ "")
    (hdb : db (dictArgsOf a.config) = Except.ok ()) :
    (runScript true db tok margs cargs stdin).stdout
        = dumpJson (Json.arr (payloadOf (tok (pyStrip stdin) a.mode))) ++ "\n" ∧
    (payloadOf (tok (pyStrip stdin) a.mode)).length
        = (tok (pyStrip stdin) a.mode).length ∧
    ∀ i (h1 : i < (payloadOf (tok (pyStrip stdin) a.mode)).length)
        (h2 : i < (tok (pyStrip stdin) a.mode).length),
      (payloadOf (tok (pyStrip stdin) a.mode)).get ⟨i, h1⟩
        = morphemeEntry ((tok (pyStrip stdin) a.mode).get ⟨i, h2⟩) := by
  refine ⟨?_, ?_, ?_⟩
  · simp [runScript, hp, hne, hdb]
  · simp [payloadOf]
  · intro i h1 h2
    simp [payloadOf]

/-- Witness for C2 on the sample tokenizer output for `東京都に行く`. -/
theorem payload_matches_morphemes_witness :
    parse_args (some "B") none = ArgResult.ok ⟨"B", none⟩ ∧
    pyStrip " 東京都に行く " ≠ "" ∧
    (runScript true dbOk tokSample (some "B") none " 東京都に行く ").stdout
        = dumpJson (Json.arr (payloadOf (tokSample (pyStrip " 東京都に行く ") "B"))) ++ "\n" ∧
    (payloadOf (tokSample (pyStrip " 東京都に行く ") "B")).length
        = (tokSample (pyStrip " 東京都に行く ") "B").length ∧
    (payloadOf (tokSample (pyStrip " 東京都に行く ") "B")).get ⟨0, by decide⟩
        = morphemeEntry ((tokSample (pyStrip " 東京都に行く ") "B").get ⟨0, by decide⟩) := by
  have h := payload_matches_morphemes dbOk tokSample (some "B") none " 東京都に行く "
    ⟨"B", none⟩ rfl (by decide) rfl
  exact ⟨rfl, by decide, h.1, h.2.1, h.2.2 0 (by decide) (by decide)⟩

/-- C4: on a producing run, every non-ASCII character of the `surface`,
`dictionaryForm`, `reading` and `normalizedForm` fields is serialized as
itself (never as a `\uXXXX` escape) and therefore appears literally in
stdout. -/
theorem nonascii_literal_output
    (db : Option String → Except String Unit)
    (tok : String → String → List Morpheme)
    (margs cargs : Option String) (stdin : String) (a : Args)
    (m : Morpheme) (s : String) (c : Char)
    (hp : parse_args margs cargs = ArgResult.ok a)
    (hne : pyStrip stdin ≠ "")
    (hdb : db (dictArgsOf a.config) = Except.ok ())
    (hm : m ∈ tok (pyStrip stdin) a.mode)
    (hs : s ∈ [m.surface, m.dictionary_form, m.reading_form, m.normalized_form])
    (hc : c ∈ s.data) (hval : 0x80 ≤ c.toNat) :
    pyEscapeChar c = String.mk [c] ∧
    c ∈ (runScript true db tok margs cargs stdin).stdout.data := by
  have hesc := pyEscapeChar_nonAscii hval
  refine ⟨hesc, ?_⟩
  have hstdout : (runScript true db tok margs cargs stdin).stdout
      = dumpJson (Json.arr (payloadOf (tok (pyStrip stdin) a.mode))) ++ "\n" := by
    simp [runScript, hp, hne, hdb]
  rw [hstdout, string_data_append]
  apply List.mem_append_left
  simp only [dumpJson]
  rw [string_data_append]
  apply List.mem_append_left
  rw [string_data_append]
  apply List.mem_append_right
  apply mem_joinSep (s := dumpJson (morphemeEntry m))
  · rw [dumpJsonList_eq_map]
    exact List.mem_map_of_mem _ (List.mem_map_of_mem _ hm)
  · exact mem_dump_morphemeEntry m hs hc hesc

/-- Witness for C4: the character 東 of the surface field appears literally
in the produced stdout. -/
theorem nonascii_literal_output_witness :
    pyEscapeChar (Char.ofNat 0x6771) = String.mk [Char.ofNat 0x6771] ∧
    Char.ofNat 0x6771
      ∈ (runScript true dbOk tokSample none none " 東京都に行く ").stdout.data :=
  nonascii_literal_output dbOk tokSample none none " 東京都に行く " ⟨"C", none⟩
    mTokyo mTokyo.surface (Char.ofNat 0x6771) rfl (by decide) rfl (by decide)
    (by decide) (by decide) (by decide)

/-- C5: every element of the output array is an object built from one
morpheme, with exactly the five keys `surface`, `dictionaryForm`,
`reading`, `partOfSpeech`, `normalizedForm`, and `partOfSpeech` is always a
JSON array of strings (the morpheme's tag list), never null or a scalar. -/
theorem output_elements_shape
    (db : Option String → Except String Unit)
    (tok : String → String → List Morpheme)
    (margs cargs : Option String) (stdin : String) (a : Args)
    (hp : parse_args margs cargs = ArgResult.ok a)
    (hne : pyStrip stdin ≠ "")
    (hdb : db (dictArgsOf a.config) = Except.ok ()) :
    (runScript true db tok margs cargs stdin).stdout
        = dumpJson (Json.arr (payloadOf (tok (pyStrip stdin) a.mode))) ++ "\n" ∧
    ∀ j ∈ payloadOf (tok (pyStrip stdin) a.mode),
      ∃ m ∈ tok (pyStrip stdin) a.mode,
        j = morphemeEntry m ∧
        jsonKeys j
          = ["surface", "dictionaryForm", "reading", "partOfSpeech", "normalizedForm"] ∧
        jsonLookup j "partOfSpeech"
          = some (Json.arr (m.part_of_speech.map Json.str)) := by
  constructor
  · simp [runScript, hp, hne, hdb]
  · intro j hj
    simp only [payloadOf, List.mem_map] at hj
    obtain ⟨m, hm, rfl⟩ := hj
    exact ⟨m, hm, rfl, rfl, rfl⟩

/-- Witness for C5 at the first sample payload element. -/
theorem output_elements_shape_witness :
    ∃ m ∈ tokSample (pyStrip " 東京都に行く ") "C",
      morphemeEntry mTokyo = morphemeEntry m ∧
      jsonKeys (morphemeEntry mTokyo)
        = ["surface", "dictionaryForm", "reading", "partOfSpeech", "normalizedForm"] ∧
      jsonLookup (morphemeEntry mTokyo) "partOfSpeech"
        = some (Json.arr (m.part_of_speech.map Json.str)) :=
  (output_elements_shape dbOk tokSample none none " 東京都に行く " ⟨"C", none⟩
    rfl (by decide) rfl).2 (morphemeEntry mTokyo) (by simp [payloadOf, tokSample])
